import Mathlib

/-!
Verification of the CryptoSleuth backend (src/main.py) against its
natural-language specification.

The embedding models the pure computation of the two endpoints
`trace_wallet` (POST /api/trace) and `generate_report` (POST /api/report).
Python strings are Lean `String`s; the Python string operations used by the
code (`strip`, `lower`, `startswith`, `endswith`, `in`, slicing, `len`) are
embedded as executable functions over the character list.  The persistence
collaborator (`create_document` / `get_documents`) is modelled by passing the
outcome of each external call as an explicit argument (`Except Unit _`), and
each endpoint additionally returns the list of document writes it attempted,
so that best-effort-persistence claims are statable.
-/

namespace CryptoSleuth

/-- Python `str.lower()` restricted to ASCII case mapping, applied
character-wise (`Char.toLower` lower-cases exactly the ASCII uppercase
letters). -/
def asciiLower (s : String) : String :=
  ⟨s.data.map Char.toLower⟩

/-- Python `str.strip()`: remove leading and trailing whitespace. -/
def pyStrip (s : String) : String :=
  ⟨((s.data.dropWhile Char.isWhitespace).reverse.dropWhile Char.isWhitespace).reverse⟩

/-- Python `s.startswith(pre)`. -/
def pyStartswith (s pre : String) : Bool :=
  pre.data.isPrefixOf s.data

/-- Python `s.endswith(suf)`. -/
def pyEndswith (s suf : String) : Bool :=
  suf.data.isSuffixOf s.data

/-- Substring test on character lists: `pat` occurs contiguously in `l`. -/
def subOccurs (pat l : List Char) : Bool :=
  match l with
  | [] => pat.isEmpty
  | _ :: t => pat.isPrefixOf l || subOccurs pat t

/-- Python `pat in s` (substring containment). -/
def pyContains (s pat : String) : Bool :=
  subOccurs pat.data s.data

/-- A row of the `RISK_RULES` table in src/main.py. -/
structure RiskRule where
  id : String
  label : String
  impact : Int
deriving Repr, DecidableEq

/-- The fixed rule table `RISK_RULES` from src/main.py. -/
def RISK_RULES : List RiskRule :=
  [ { id := "darknet_link", label := "Direct link to darknet market", impact := 70 },
    { id := "mixer_use", label := "Used mixing service", impact := 50 },
    { id := "hack_proceeds", label := "Received from hack/scam", impact := 90 },
    { id := "large_tx", label := "Large sudden transfer", impact := 30 },
    { id := "structuring", label := "Frequent small transactions", impact := 40 },
    { id := "hodl", label := "Long-held funds", impact := -10 },
    { id := "kyc_exchange", label := "From known exchange", impact := -20 } ]

/-- The function `clamp` from src/main.py, at its default bounds `lo = 0`, `hi = 100`
(the only way the program calls it). -/
def clamp (v : Int) : Int :=
  max 0 (min 100 v)

/-- One iteration of the accumulation loop in `compute_risk`: look the flag
up in the table (`next((r for r in RISK_RULES if r["id"] == f), None)`) and
add its impact when found. -/
def riskStep (score : Int) (f : String) : Int :=
  match RISK_RULES.find? (fun r => r.id == f) with
  | some rule => score + rule.impact
  | none => score

/-- The function `compute_risk` from src/main.py: running sum over the flag list, adding
the impact of the first rule whose id matches each flag, then clamped. -/
def compute_risk (flags : List String) : Int :=
  clamp (flags.foldl riskStep 0)

/-- Modelled from the spec (section 4.2): the impact contributed by a single
flag id — the table impact when the id appears in the table, `0` otherwise. -/
def impactOf (f : String) : Int :=
  match RISK_RULES.find? (fun r => r.id == f) with
  | some rule => rule.impact
  | none => 0

/-- The flag-extraction step of `trace_wallet` (src/main.py lines 105-125):
seven independent checks, each appending one id, in program order.
Substring checks run on the lowercased address, length checks on the
original string. -/
def extract_flags (address : String) : List String :=
  let addr_lower := asciiLower address
  (if pyEndswith addr_lower "bad" || pyStartswith addr_lower "0xdead" then ["hack_proceeds"] else []) ++
  (if pyContains addr_lower "mix" || pyContains addr_lower "tornado" then ["mixer_use"] else []) ++
  (if pyStartswith addr_lower "bc1dark" || pyContains addr_lower "hydra" then ["darknet_link"] else []) ++
  (if address.length % 7 == 0 then ["large_tx"] else []) ++
  (if address.length % 5 == 0 then ["structuring"] else []) ++
  (if pyContains addr_lower "coinbase" || pyContains addr_lower "binance" then ["kyc_exchange"] else []) ++
  (if address.length % 11 == 0 then ["hodl"] else [])

/-- Modelled from the spec (section 4.1): the seven rules as an ordered
rule list, "evaluated independently and all appended if true (order as
listed)" — each rule pairs an indicator id with its condition, substring
checks on the ASCII-lowercased address and length checks on the original
string.  The extractor keeps the ids of the rules whose condition holds. -/
def flagRules (address : String) : List (String × Bool) :=
  let low := asciiLower address
  [ ("hack_proceeds", pyEndswith low "bad" || pyStartswith low "0xdead"),
    ("mixer_use", pyContains low "mix" || pyContains low "tornado"),
    ("darknet_link", pyStartswith low "bc1dark" || pyContains low "hydra"),
    ("large_tx", address.length % 7 == 0),
    ("structuring", address.length % 5 == 0),
    ("kyc_exchange", pyContains low "coinbase" || pyContains low "binance"),
    ("hodl", address.length % 11 == 0) ]

/-- Modelled from the spec (section 4.1): the ordered list of indicator ids
whose rule fires. -/
def extract_flags_spec (address : String) : List String :=
  ((flagRules address).filter (fun p => p.2)).map (fun p => p.1)

/-- Round-half-to-even on rationals (the tie-breaking used by Python `round`). -/
def roundHalfEven (q : ℚ) : ℤ :=
  let f := ⌊q⌋
  let r := q - f
  if r < 1/2 then f
  else if 1/2 < r then f + 1
  else if f % 2 = 0 then f else f + 1

/-- Python `round(x, 4)` on exact rational values. -/
def pyRound4 (q : ℚ) : ℚ :=
  (roundHalfEven (q * 10000) : ℚ) / 10000

/-- One synthetic transaction record from the `txs` comprehension in
`trace_wallet` (src/main.py lines 131-143). -/
structure Tx where
  txid : String
  from_address : String
  to_address : String
  amount : ℚ
  symbol : String
  timestamp : String
  chain : String
  flags : List String
deriving Repr, DecidableEq

/-- Transaction `i` of the `txs` comprehension: roles alternate with the
parity of `i`, `amount = round(0.5 * (i + 1), 4)`, symbol literally `"ETH"`,
and the per-transaction flag list filters the full flag list by a condition
that does not mention the flag, then truncates to two entries. -/
def mkTx (address chain now : String) (flags : List String) (i : ℕ) : Tx :=
  { txid := "demo-" ++ toString i ++ "-" ++ address.take 6,
    from_address := if i % 2 == 0 then address else "peer-" ++ toString i,
    to_address := if i % 2 == 0 then "peer-" ++ toString i else address,
    amount := pyRound4 (1/2 * ((i : ℚ) + 1)),
    symbol := "ETH",
    timestamp := now ++ "Z",
    chain := chain,
    flags := (flags.filter (fun _ => (i + address.length) % 2 == 0)).take 2 }

/-- The successful response body of `trace_wallet`. -/
structure TraceResponse where
  address : String
  chain : String
  risk_score : Int
  flags : List String
  transactions : List Tx
deriving Repr, DecidableEq

/-- A write attempted against the document store. -/
inductive WriteOp where
  | wallet (address chain : String) (risk_score : Int) (last_scored_at : String)
  | reportDoc (address chain summary : String) (risk_score : Int)
      (recommendation : String) (generated_at : String)
deriving Repr, DecidableEq

/-- The non-error path of `trace_wallet` on the already-stripped address:
flags, risk score, and the six synthetic transactions. -/
def trace_core (address chain now : String) : TraceResponse :=
  let flags := extract_flags address
  let risk := compute_risk flags
  { address := address,
    chain := chain,
    risk_score := risk,
    flags := flags,
    transactions := (List.range 6).map (mkTx address chain now flags) }

/-- The endpoint `trace_wallet` (src/main.py lines 93-163).  `createO` is the outcome of
the `create_document("wallet", ...)` call; its failure is swallowed by
`except Exception: pass`.  Returns the HTTP-level result together with the
list of writes the endpoint attempted. -/
def trace_wallet (createO : Except Unit Unit) (address₀ chain now : String) :
    Except String TraceResponse × List WriteOp :=
  let address := pyStrip address₀
  if address = "" then
    (Except.error "Address is required", [])
  else
    let resp := trace_core address chain now
    match createO with
    | Except.ok _ =>
        (Except.ok resp, [WriteOp.wallet address chain resp.risk_score now])
    | Except.error _ =>
        (Except.ok resp, [WriteOp.wallet address chain resp.risk_score now])

/-- A persisted wallet document as read back by `get_documents`; the
`risk_score` field may be absent (`latest.get("risk_score", 0)`). -/
structure WalletDoc where
  risk_score : Option Int
deriving Repr, DecidableEq

/-- The `classification` expression in `generate_report`
(src/main.py lines 192-197). -/
def classification (score : Int) : String :=
  if score ≤ 20 then "Safe"
  else if score ≤ 50 then "Moderate Risk"
  else if score ≤ 70 then "High Risk"
  else "Extreme Risk"

/-- The `recommendation` expression in `generate_report`
(src/main.py lines 210-215). -/
def recommendation (score : Int) : String :=
  if score ≤ 20 then "No restrictions"
  else if score ≤ 50 then "Manual review needed"
  else if score ≤ 70 then "Freeze transactions and notify authorities"
  else "Block immediately and initiate legal action"

/-- The `summary` f-string of `generate_report` (src/main.py lines 199-202). -/
def mkSummary (address chain tier : String) (score : Int) : String :=
  "Wallet " ++ address ++ " on " ++ chain ++ " is classified as " ++ tier ++
    " with score " ++ toString score ++
    ". This automated report is generated for investigative triage and is not a legal determination."

/-- The report object built by `generate_report` (src/main.py lines 204-218). -/
structure Report where
  address : String
  chain : String
  summary : String
  risk_score : Int
  recommendation : String
  generated_at : String
deriving Repr, DecidableEq

/-- Assembles the report dict of `generate_report` from the chosen score. -/
def mkReport (address chain : String) (score : Int) (now : String) : Report :=
  { address := address,
    chain := chain,
    summary := mkSummary address chain (classification score) score,
    risk_score := score,
    recommendation := recommendation score,
    generated_at := now ++ "Z" }

/-- The endpoint `generate_report` (src/main.py lines 172-225).  `getO` is the outcome of
`get_documents("wallet", ...)` (failure is swallowed, leaving `docs = []`);
`walletCreateO` is the outcome of the wallet write of the nested trace;
`reportCreateO` the outcome of `create_document("report", ...)`, also
swallowed.  Returns the HTTP-level result with the attempted writes. -/
def generate_report (getO : Except Unit (List WalletDoc))
    (walletCreateO reportCreateO : Except Unit Unit)
    (address₀ chain now : String) : Except String Report × List WriteOp :=
  let address := pyStrip address₀
  if address = "" then
    (Except.error "Address is required", [])
  else
    let docs := match getO with
      | Except.ok ds => ds
      | Except.error _ => []
    match docs with
    | latest :: _ =>
        let score := latest.risk_score.getD 0
        let report := mkReport address chain score now
        let writeRec := WriteOp.reportDoc report.address report.chain report.summary
          report.risk_score report.recommendation report.generated_at
        match reportCreateO with
        | Except.ok _ => (Except.ok report, [writeRec])
        | Except.error _ => (Except.ok report, [writeRec])
    | [] =>
        match trace_wallet walletCreateO address chain now with
        | (Except.ok resp, writes) =>
            let report := mkReport address chain resp.risk_score now
            let writeRec := WriteOp.reportDoc report.address report.chain report.summary
              report.risk_score report.recommendation report.generated_at
            match reportCreateO with
            | Except.ok _ => (Except.ok report, writes ++ [writeRec])
            | Except.error _ => (Except.ok report, writes ++ [writeRec])
        | (Except.error e, writes) => (Except.error e, writes)

/-! ## Helper lemmas -/

/-- Filtering by a condition that ignores the element keeps all or nothing. -/
lemma filter_ignores_elem {α : Type} (l : List α) (b : Bool) :
    l.filter (fun _ => b) = if b then l else [] := by
  cases b <;> simp

/-- The sequential-append form of the seven flag rules coincides with the
filter-then-project form, and never contains a duplicate id. -/
lemma seven_rules_eq_and_nodup (b1 b2 b3 b4 b5 b6 b7 : Bool) :
    ((if b1 then ["hack_proceeds"] else []) ++
     (if b2 then ["mixer_use"] else []) ++
     (if b3 then ["darknet_link"] else []) ++
     (if b4 then ["large_tx"] else []) ++
     (if b5 then ["structuring"] else []) ++
     (if b6 then ["kyc_exchange"] else []) ++
     (if b7 then ["hodl"] else []) =
      (([("hack_proceeds", b1), ("mixer_use", b2), ("darknet_link", b3),
         ("large_tx", b4), ("structuring", b5), ("kyc_exchange", b6),
         ("hodl", b7)].filter (fun p => p.2)).map (fun p => p.1))) ∧
    ((if b1 then ["hack_proceeds"] else []) ++
     (if b2 then ["mixer_use"] else []) ++
     (if b3 then ["darknet_link"] else []) ++
     (if b4 then ["large_tx"] else []) ++
     (if b5 then ["structuring"] else []) ++
     (if b6 then ["kyc_exchange"] else []) ++
     (if b7 then ["hodl"] else [])).Nodup := by
  cases b1 <;> cases b2 <;> cases b3 <;> cases b4 <;> cases b5 <;> cases b6 <;>
    cases b7 <;> exact ⟨by decide, by decide⟩

/-- The accumulation loop of `compute_risk` computes the accumulator plus the
sum of the per-flag impacts. -/
lemma foldl_riskStep (l : List String) : ∀ s : Int,
    l.foldl riskStep s = s + (l.map impactOf).sum := by
  induction l with
  | nil => intro s; simp
  | cons a t ih =>
      intro s
      have hstep : riskStep s a = s + impactOf a := by
        unfold riskStep impactOf
        cases RISK_RULES.find? (fun r => r.id == a) <;> simp
      simp only [List.foldl_cons, List.map_cons, List.sum_cons, ih, hstep]
      ring_nf

/-- The function `clamp` lands in the closed interval `[0, 100]`. -/
lemma clamp_mem (v : Int) : 0 ≤ clamp v ∧ clamp v ≤ 100 := by
  unfold clamp
  constructor
  · exact le_max_left 0 _
  · exact max_le (by norm_num) (min_le_left 100 v)

/-- Python `round(0.5 * (i + 1), 4)` is exact: the argument times `10000` is an
integer, so the rounding returns the argument unchanged. -/
lemma pyRound4_half (n : ℕ) :
    pyRound4 (1/2 * ((n : ℚ) + 1)) = ((n : ℚ) + 1) / 2 := by
  have h : (1/2 * ((n : ℚ) + 1)) * 10000 = ((5000 * ((n : ℤ) + 1) : ℤ) : ℚ) := by
    push_cast
    ring
  unfold pyRound4 roundHalfEven
  rw [h, Int.floor_intCast]
  rw [if_pos (by simp)]
  push_cast
  ring

/-- Taking two elements of a non-empty list yields a non-empty list. -/
lemma take_two_not_empty {l : List String} (h : l ≠ []) :
    (l.take 2).isEmpty = false := by
  cases l with
  | nil => exact absurd rfl h
  | cons a t => simp

/-! ## Claim theorems -/

/-- C1: for every non-empty trimmed address, the flag-extraction step of
`trace_wallet` produces exactly the ordered list of indicator ids given by
the seven rules in program order — substring checks on the ASCII-lowercased
address, length checks on the original string — with no duplicate ids. -/
theorem flag_extraction_matches_spec (address : String) (h : address ≠ "") :
    extract_flags address = extract_flags_spec address ∧
    (extract_flags address).Nodup := by
  have := seven_rules_eq_and_nodup
    (pyEndswith (asciiLower address) "bad" || pyStartswith (asciiLower address) "0xdead")
    (pyContains (asciiLower address) "mix" || pyContains (asciiLower address) "tornado")
    (pyStartswith (asciiLower address) "bc1dark" || pyContains (asciiLower address) "hydra")
    (address.length % 7 == 0)
    (address.length % 5 == 0)
    (pyContains (asciiLower address) "coinbase" || pyContains (asciiLower address) "binance")
    (address.length % 11 == 0)
  exact this

/-- C1 witness: the flag extractor at the concrete address "tornado". -/
theorem flag_extraction_matches_spec_witness :
    extract_flags "tornado" = extract_flags_spec "tornado" ∧
    (extract_flags "tornado").Nodup :=
  flag_extraction_matches_spec "tornado" (by decide)

/-- C2 counterexample: `compute_risk` adds the impact once per occurrence, so
a duplicated flag id changes the result — the claimed equality with the
deduplicated list fails on the list `["mixer_use", "mixer_use"]`. -/
theorem compute_risk_duplicate_counts_twice :
    compute_risk ["mixer_use", "mixer_use"] = 100 ∧
    List.dedup ["mixer_use", "mixer_use"] = ["mixer_use"] ∧
    compute_risk (List.dedup ["mixer_use", "mixer_use"]) = 50 ∧
    compute_risk ["mixer_use", "mixer_use"] ≠
      compute_risk (List.dedup ["mixer_use", "mixer_use"]) := by
  refine ⟨by decide, by decide, by decide, by decide⟩

/-- C2 (amended): `compute_risk l = compute_risk (dedupe-by-id l)` for every
duplicate-free list `l` — in particular for every list the extractor can
emit; for lists with a repeated id the two sides can differ, since the loop
adds the impact once per occurrence. -/
theorem compute_risk_dedup_of_nodup (l : List String) (h : l.Nodup) :
    compute_risk l = compute_risk (List.dedup l) := by
  rw [List.Nodup.dedup h]

/-- C2 witness: the amended dedupe equality at a concrete duplicate-free
flag list. -/
theorem compute_risk_dedup_of_nodup_witness :
    compute_risk ["mixer_use", "large_tx"] =
      compute_risk (List.dedup ["mixer_use", "large_tx"]) :=
  compute_risk_dedup_of_nodup ["mixer_use", "large_tx"] (by decide)

/-- C3: `compute_risk` is the clamp to `[0, 100]` of the sum of per-flag
impacts from the fixed 7-entry table (ids outside the table contribute 0,
`kyc_exchange` contributes −20), the empty list scores 0, and every
successful `trace_wallet` response carries a risk score in `[0, 100]`. -/
theorem compute_risk_clamped_sum :
    (∀ flags : List String, compute_risk flags = clamp ((flags.map impactOf).sum)) ∧
    RISK_RULES.length = 7 ∧
    impactOf "kyc_exchange" = -20 ∧
    compute_risk [] = 0 ∧
    (∀ flags : List String, 0 ≤ compute_risk flags ∧ compute_risk flags ≤ 100) ∧
    (∀ (createO : Except Unit Unit) (address chain now : String) (resp : TraceResponse),
      (trace_wallet createO address chain now).1 = Except.ok resp →
      0 ≤ resp.risk_score ∧ resp.risk_score ≤ 100) := by
  have hsum : ∀ flags : List String,
      compute_risk flags = clamp ((flags.map impactOf).sum) := by
    intro flags
    unfold compute_risk
    rw [foldl_riskStep]
    norm_num
  refine ⟨hsum, by decide, by decide, by decide, fun flags => ?_, ?_⟩
  · rw [hsum]
    exact clamp_mem _
  · intro createO address chain now resp hok
    unfold trace_wallet at hok
    by_cases hemp : pyStrip address = ""
    · rw [if_pos hemp] at hok
      exact absurd hok (by simp)
    · rw [if_neg hemp] at hok
      have hresp : resp = trace_core (pyStrip address) chain now := by
        cases createO <;> simpa using hok.symm
      have : resp.risk_score = compute_risk (extract_flags (pyStrip address)) := by
        rw [hresp]; rfl
      rw [this, hsum]
      exact clamp_mem _

/-- C3 witness: the trace response for the concrete address "tornado" has a
risk score within `[0, 100]`. -/
theorem compute_risk_clamped_sum_witness :
    0 ≤ (trace_core "tornado" "ethereum" "T").risk_score ∧
    (trace_core "tornado" "ethereum" "T").risk_score ≤ 100 :=
  compute_risk_clamped_sum.2.2.2.2.2 (Except.ok ()) "tornado" "ethereum" "T"
    (trace_core "tornado" "ethereum" "T") rfl

/-- C4: the classifier in `generate_report` maps 0–20 to Safe / No
restrictions, 21–50 to Moderate Risk / Manual review needed, 51–70 to High
Risk / Freeze transactions and notify authorities, and 71–100 to Extreme
Risk / Block immediately and initiate legal action. -/
theorem classifier_boundaries (score : Int) :
    (0 ≤ score → score ≤ 20 →
      classification score = "Safe" ∧ recommendation score = "No restrictions") ∧
    (21 ≤ score → score ≤ 50 →
      classification score = "Moderate Risk" ∧
      recommendation score = "Manual review needed") ∧
    (51 ≤ score → score ≤ 70 →
      classification score = "High Risk" ∧
      recommendation score = "Freeze transactions and notify authorities") ∧
    (71 ≤ score → score ≤ 100 →
      classification score = "Extreme Risk" ∧
      recommendation score = "Block immediately and initiate legal action") := by
  unfold classification recommendation
  refine ⟨fun h1 h2 => ⟨?_, ?_⟩, fun h1 h2 => ⟨?_, ?_⟩,
          fun h1 h2 => ⟨?_, ?_⟩, fun h1 h2 => ⟨?_, ?_⟩⟩ <;>
    split_ifs <;> first | rfl | omega

/-- C4 witness: the classifier at the six boundary scores 20, 21, 50, 51,
70, 71. -/
theorem classifier_boundaries_witness :
    (classification 20 = "Safe" ∧ recommendation 20 = "No restrictions") ∧
    (classification 21 = "Moderate Risk" ∧ recommendation 21 = "Manual review needed") ∧
    (classification 50 = "Moderate Risk" ∧ recommendation 50 = "Manual review needed") ∧
    (classification 51 = "High Risk" ∧
      recommendation 51 = "Freeze transactions and notify authorities") ∧
    (classification 70 = "High Risk" ∧
      recommendation 70 = "Freeze transactions and notify authorities") ∧
    (classification 71 = "Extreme Risk" ∧
      recommendation 71 = "Block immediately and initiate legal action") :=
  ⟨(classifier_boundaries 20).1 (by norm_num) (by norm_num),
   (classifier_boundaries 21).2.1 (by norm_num) (by norm_num),
   (classifier_boundaries 50).2.1 (by norm_num) (by norm_num),
   (classifier_boundaries 51).2.2.1 (by norm_num) (by norm_num),
   (classifier_boundaries 70).2.2.1 (by norm_num) (by norm_num),
   (classifier_boundaries 71).2.2.2 (by norm_num) (by norm_num)⟩

/-- On a trimmed non-empty address, `trace_wallet` succeeds with the core
response and attempts exactly the wallet write, whatever the write outcome. -/
lemma trace_wallet_ok (address chain now : String) (o : Except Unit Unit)
    (h1 : pyStrip address = address) (h2 : address ≠ "") :
    trace_wallet o address chain now =
      (Except.ok (trace_core address chain now),
       [WriteOp.wallet address chain (trace_core address chain now).risk_score now]) := by
  cases o <;> simp [trace_wallet, h1, h2]

/-- On a trimmed non-empty address, when the lookup yields no document
(empty result or failure) `generate_report` falls back to the fresh trace
score. -/
lemma generate_report_fst_fallback (address chain now : String)
    (getO : Except Unit (List WalletDoc)) (o1 o2 : Except Unit Unit)
    (h1 : pyStrip address = address) (h2 : address ≠ "")
    (hget : getO = Except.ok [] ∨ getO = Except.error ()) :
    (generate_report getO o1 o2 address chain now).1 =
      Except.ok (mkReport address chain (trace_core address chain now).risk_score now) := by
  rcases hget with h | h <;> subst h <;> cases o1 <;> cases o2 <;>
    simp [generate_report, trace_wallet, h1, h2]

/-- On a trimmed non-empty address, when the lookup returns a document
`generate_report` uses the stored score (defaulting a missing field to 0). -/
lemma generate_report_fst_found (address chain now : String)
    (d : WalletDoc) (ds : List WalletDoc) (o1 o2 : Except Unit Unit)
    (h1 : pyStrip address = address) (h2 : address ≠ "") :
    (generate_report (Except.ok (d :: ds)) o1 o2 address chain now).1 =
      Except.ok (mkReport address chain (d.risk_score.getD 0) now) := by
  cases o2 <;> simp [generate_report, h1, h2]

/-- C5: for every trimmed non-empty address, `trace_wallet` succeeds and returns
exactly 6 synthetic transactions: transaction `i` has txid built from `i` and
the first 6 characters of the address, sender/recipient roles alternating with
the parity of `i`, amount `0.5 * (i + 1)` (rounding to 4 decimals is exact, so
the amounts are 0.5, 1.0, 1.5, 2.0, 2.5, 3.0), and symbol literally "ETH"
whatever the chain. -/
theorem trace_transactions_shape (address chain now : String)
    (createO : Except Unit Unit)
    (h1 : pyStrip address = address) (h2 : address ≠ "") :
    (trace_wallet createO address chain now).1 =
      Except.ok (trace_core address chain now) ∧
    (trace_core address chain now).transactions.length = 6 ∧
    (trace_core address chain now).transactions =
      (List.range 6).map (fun i =>
        { txid := "demo-" ++ toString i ++ "-" ++ address.take 6,
          from_address := if i % 2 == 0 then address else "peer-" ++ toString i,
          to_address := if i % 2 == 0 then "peer-" ++ toString i else address,
          amount := ((i : ℚ) + 1) / 2,
          symbol := "ETH",
          timestamp := now ++ "Z",
          chain := chain,
          flags := ((extract_flags address).filter
            (fun _ => (i + address.length) % 2 == 0)).take 2 }) ∧
    (trace_core address chain now).transactions.map (fun t => t.amount) =
      [1/2, 1, 3/2, 2, 5/2, 3] := by
  have hfun : mkTx address chain now (extract_flags address) = fun (i : ℕ) =>
      ({ txid := "demo-" ++ toString i ++ "-" ++ address.take 6,
         from_address := if i % 2 == 0 then address else "peer-" ++ toString i,
         to_address := if i % 2 == 0 then "peer-" ++ toString i else address,
         amount := ((i : ℚ) + 1) / 2,
         symbol := "ETH",
         timestamp := now ++ "Z",
         chain := chain,
         flags := ((extract_flags address).filter
           (fun _ => (i + address.length) % 2 == 0)).take 2 } : Tx) := by
    funext i
    unfold mkTx
    rw [pyRound4_half]
  have htx : (trace_core address chain now).transactions =
      (List.range 6).map (mkTx address chain now (extract_flags address)) := rfl
  refine ⟨?_, ?_, ?_, ?_⟩
  · rw [trace_wallet_ok address chain now createO h1 h2]
  · rw [htx]; simp
  · rw [htx, hfun]
  · rw [htx, hfun, List.map_map]
    simp [List.range_succ]
    norm_num

/-- C5 witness: the transaction-list shape at the concrete address "tornado". -/
theorem trace_transactions_shape_witness :
    (trace_wallet (Except.ok ()) "tornado" "ethereum" "T").1 =
      Except.ok (trace_core "tornado" "ethereum" "T") ∧
    (trace_core "tornado" "ethereum" "T").transactions.length = 6 ∧
    (trace_core "tornado" "ethereum" "T").transactions.map (fun t => t.amount) =
      [1/2, 1, 3/2, 2, 5/2, 3] :=
  ⟨(trace_transactions_shape "tornado" "ethereum" "T" (Except.ok ()) rfl (by decide)).1,
   (trace_transactions_shape "tornado" "ethereum" "T" (Except.ok ()) rfl (by decide)).2.1,
   (trace_transactions_shape "tornado" "ethereum" "T" (Except.ok ()) rfl (by decide)).2.2.2⟩

/-- C6: an address that strips to the empty string makes both endpoints fail
with the invalid-input error, with no computation used and no persistence
write attempted. -/
theorem empty_address_rejected (address chain now : String)
    (createO walletCreateO reportCreateO : Except Unit Unit)
    (getO : Except Unit (List WalletDoc))
    (h : pyStrip address = "") :
    trace_wallet createO address chain now =
      (Except.error "Address is required", []) ∧
    generate_report getO walletCreateO reportCreateO address chain now =
      (Except.error "Address is required", []) := by
  constructor
  · unfold trace_wallet
    rw [h]
    simp
  · unfold generate_report
    rw [h]
    simp

/-- C6 witness: the whitespace-only address "   " is rejected by both
endpoints without a write. -/
theorem empty_address_rejected_witness :
    trace_wallet (Except.ok ()) "   " "ethereum" "T" =
      (Except.error "Address is required", []) ∧
    generate_report (Except.ok []) (Except.ok ()) (Except.ok ()) "   " "ethereum" "T" =
      (Except.error "Address is required", []) :=
  empty_address_rejected "   " "ethereum" "T" (Except.ok ()) (Except.ok ())
    (Except.ok ()) (Except.ok []) (by decide)

/-- C7: with no stored wallet record (empty lookup result or lookup failure),
the risk score of the report equals the score `trace_wallet` computes for the same
address and chain; with a stored record carrying a risk score, the report
uses that stored score. -/
theorem report_uses_stored_or_fresh_score (address chain now : String)
    (createO walletCreateO reportCreateO : Except Unit Unit)
    (h1 : pyStrip address = address) (h2 : address ≠ "") :
    (∀ getO : Except Unit (List WalletDoc),
      getO = Except.ok [] ∨ getO = Except.error () →
      (generate_report getO walletCreateO reportCreateO address chain now).1.map
          (fun r => r.risk_score) =
        (trace_wallet createO address chain now).1.map (fun r => r.risk_score)) ∧
    (∀ (d : WalletDoc) (ds : List WalletDoc) (s : Int), d.risk_score = some s →
      (generate_report (Except.ok (d :: ds)) walletCreateO reportCreateO
          address chain now).1.map (fun r => r.risk_score) = Except.ok s) := by
  constructor
  · intro getO hget
    rw [generate_report_fst_fallback address chain now getO walletCreateO
          reportCreateO h1 h2 hget,
        trace_wallet_ok address chain now createO h1 h2]
    rfl
  · intro d ds s hs
    rw [generate_report_fst_found address chain now d ds walletCreateO
          reportCreateO h1 h2, hs]
    rfl

/-- C7 witness: for the concrete address "tornado", the fallback report score
matches the trace score, and a stored record with score 42 is used as-is. -/
theorem report_uses_stored_or_fresh_score_witness :
    (generate_report (Except.ok []) (Except.ok ()) (Except.ok ())
        "tornado" "ethereum" "T").1.map (fun r => r.risk_score) =
      (trace_wallet (Except.ok ()) "tornado" "ethereum" "T").1.map
        (fun r => r.risk_score) ∧
    (generate_report (Except.ok [{ risk_score := some 42 }]) (Except.ok ())
        (Except.ok ()) "tornado" "ethereum" "T").1.map (fun r => r.risk_score) =
      Except.ok 42 :=
  ⟨(report_uses_stored_or_fresh_score "tornado" "ethereum" "T" (Except.ok ())
      (Except.ok ()) (Except.ok ()) rfl (by decide)).1 (Except.ok []) (Or.inl rfl),
   (report_uses_stored_or_fresh_score "tornado" "ethereum" "T" (Except.ok ())
      (Except.ok ()) (Except.ok ()) rfl (by decide)).2 { risk_score := some 42 }
      [] 42 rfl⟩

/-- C8: persistence failures are swallowed: the write outcomes never change
the HTTP-level result of either endpoint, a failed lookup behaves exactly like a
lookup that found nothing, and both endpoints still succeed. -/
theorem persistence_failures_ignored (address chain now : String)
    (h1 : pyStrip address = address) (h2 : address ≠ "") :
    (∀ o o' : Except Unit Unit,
      (trace_wallet o address chain now).1 = (trace_wallet o' address chain now).1) ∧
    (∃ resp, (trace_wallet (Except.error ()) address chain now).1 = Except.ok resp) ∧
    (∀ (getO : Except Unit (List WalletDoc)) (o1 o1' o2 o2' : Except Unit Unit),
      (generate_report getO o1 o2 address chain now).1 =
        (generate_report getO o1' o2' address chain now).1) ∧
    (∀ o1 o2 : Except Unit Unit,
      (generate_report (Except.error ()) o1 o2 address chain now).1 =
        (generate_report (Except.ok []) o1 o2 address chain now).1) ∧
    (∀ (getO : Except Unit (List WalletDoc)) (o1 o2 : Except Unit Unit),
      ∃ rep, (generate_report getO o1 o2 address chain now).1 = Except.ok rep) := by
  have hrep : ∀ (getO : Except Unit (List WalletDoc)) (o1 o2 : Except Unit Unit),
      (generate_report getO o1 o2 address chain now).1 =
        match getO with
        | Except.ok (d :: _) =>
            Except.ok (mkReport address chain (d.risk_score.getD 0) now)
        | _ =>
            Except.ok (mkReport address chain
              (trace_core address chain now).risk_score now) := by
    intro getO o1 o2
    match getO with
    | Except.ok [] =>
        exact generate_report_fst_fallback address chain now _ o1 o2 h1 h2 (Or.inl rfl)
    | Except.error () =>
        exact generate_report_fst_fallback address chain now _ o1 o2 h1 h2 (Or.inr rfl)
    | Except.ok (d :: ds) =>
        exact generate_report_fst_found address chain now d ds o1 o2 h1 h2
  refine ⟨?_, ?_, ?_, ?_, ?_⟩
  · intro o o'
    rw [trace_wallet_ok address chain now o h1 h2,
        trace_wallet_ok address chain now o' h1 h2]
  · exact ⟨trace_core address chain now,
      by rw [trace_wallet_ok address chain now (Except.error ()) h1 h2]⟩
  · intro getO o1 o1' o2 o2'
    rw [hrep getO o1 o2, hrep getO o1' o2']
  · intro o1 o2
    rw [hrep (Except.error ()) o1 o2, hrep (Except.ok []) o1 o2]
  · intro getO o1 o2
    rw [hrep getO o1 o2]
    match getO with
    | Except.ok [] => exact ⟨_, rfl⟩
    | Except.error () => exact ⟨_, rfl⟩
    | Except.ok (d :: ds) => exact ⟨_, rfl⟩

/-- C8 witness: at the concrete address "tornado", a failing wallet write and
a failing lookup leave the results of both endpoints unchanged. -/
theorem persistence_failures_ignored_witness :
    (trace_wallet (Except.error ()) "tornado" "ethereum" "T").1 =
      (trace_wallet (Except.ok ()) "tornado" "ethereum" "T").1 ∧
    (generate_report (Except.error ()) (Except.error ()) (Except.error ())
        "tornado" "ethereum" "T").1 =
      (generate_report (Except.ok []) (Except.error ()) (Except.error ())
        "tornado" "ethereum" "T").1 :=
  ⟨(persistence_failures_ignored "tornado" "ethereum" "T" rfl (by decide)).1
      (Except.error ()) (Except.ok ()),
   (persistence_failures_ignored "tornado" "ethereum" "T" rfl (by decide)).2.2.2.1
      (Except.error ()) (Except.error ())⟩

/-- C9: a stored wallet document without a `risk_score` field makes the
report use score 0, hence tier "Safe" and recommendation "No restrictions",
whatever `trace_wallet` would compute for that address. -/
theorem missing_risk_score_defaults_to_safe (address chain now : String)
    (o1 o2 : Except Unit Unit) (d : WalletDoc) (ds : List WalletDoc)
    (h1 : pyStrip address = address) (h2 : address ≠ "")
    (hd : d.risk_score = none) :
    (generate_report (Except.ok (d :: ds)) o1 o2 address chain now).1 =
      Except.ok (mkReport address chain 0 now) ∧
    (mkReport address chain 0 now).risk_score = 0 ∧
    (mkReport address chain 0 now).recommendation = "No restrictions" ∧
    (mkReport address chain 0 now).summary = mkSummary address chain "Safe" 0 := by
  refine ⟨?_, rfl, rfl, rfl⟩
  rw [generate_report_fst_found address chain now d ds o1 o2 h1 h2, hd]
  rfl

/-- C9 witness: the address "0xdeadbad" would trace to risk 90 (Extreme is
71+), yet a stored record lacking `risk_score` yields the Safe report. -/
theorem missing_risk_score_defaults_to_safe_witness :
    (trace_core "0xdeadbad" "ethereum" "T").risk_score = 90 ∧
    (generate_report (Except.ok [{ risk_score := none }]) (Except.ok ())
        (Except.ok ()) "0xdeadbad" "ethereum" "T").1 =
      Except.ok (mkReport "0xdeadbad" "ethereum" 0 "T") ∧
    (mkReport "0xdeadbad" "ethereum" 0 "T").recommendation = "No restrictions" :=
  ⟨by decide,
   (missing_risk_score_defaults_to_safe "0xdeadbad" "ethereum" "T" (Except.ok ())
      (Except.ok ()) { risk_score := none } [] rfl (by decide) rfl).1,
   (missing_risk_score_defaults_to_safe "0xdeadbad" "ethereum" "T" (Except.ok ())
      (Except.ok ()) { risk_score := none } [] rfl (by decide) rfl).2.2.1⟩

/-- C10: the per-transaction flag filter ignores the flag itself, so
transaction `i` carries the first two flags of the full list exactly when
`i` has the parity of the address length, and an empty list otherwise; when
any flag was detected, exactly 3 of the 6 transactions carry flags. -/
theorem tx_flags_all_or_nothing (address chain now : String)
    (h1 : pyStrip address = address) (h2 : address ≠ "") :
    ((trace_core address chain now).transactions.map (fun t => t.flags) =
      (List.range 6).map (fun i =>
        if (i + address.length) % 2 == 0 then (extract_flags address).take 2
        else [])) ∧
    (extract_flags address ≠ [] →
      ((trace_core address chain now).transactions.filter
        (fun t => !t.flags.isEmpty)).length = 3) := by
  have hflag : ∀ i, (mkTx address chain now (extract_flags address) i).flags =
      if (i + address.length) % 2 == 0 then (extract_flags address).take 2
      else [] := by
    intro i
    show ((extract_flags address).filter
      (fun _ => (i + address.length) % 2 == 0)).take 2 = _
    rw [filter_ignores_elem]
    cases hcond : ((i + address.length) % 2 == 0) <;> simp [hcond]
  have htx : (trace_core address chain now).transactions =
      (List.range 6).map (mkTx address chain now (extract_flags address)) := rfl
  constructor
  · rw [htx, List.map_map]
    have : ((fun t => t.flags) ∘ mkTx address chain now (extract_flags address)) =
        fun i => if (i + address.length) % 2 == 0 then (extract_flags address).take 2
          else [] := funext hflag
    rw [this]
  · intro hne
    have hne2 : ((extract_flags address).take 2).isEmpty = false :=
      take_two_not_empty hne
    rw [htx]
    rcases Nat.mod_two_eq_zero_or_one address.length with hpar | hpar <;>
    · have c0 : (0 + address.length) % 2 = address.length % 2 := by omega
      have c1 : (1 + address.length) % 2 = (address.length % 2 + 1) % 2 := by omega
      have c2 : (2 + address.length) % 2 = address.length % 2 := by omega
      have c3 : (3 + address.length) % 2 = (address.length % 2 + 1) % 2 := by omega
      have c4 : (4 + address.length) % 2 = address.length % 2 := by omega
      have c5 : (5 + address.length) % 2 = (address.length % 2 + 1) % 2 := by omega
      simp [List.range_succ, hflag, c0, c1, c2, c3, c4, c5, hpar, hne2]

/-- C10 witness: at the concrete address "tornado" (length 7, flags
detected), exactly 3 of the 6 transactions carry the two-flag prefix. -/
theorem tx_flags_all_or_nothing_witness :
    ((trace_core "tornado" "ethereum" "T").transactions.filter
      (fun t => !t.flags.isEmpty)).length = 3 :=
  (tx_flags_all_or_nothing "tornado" "ethereum" "T" rfl (by decide)).2 (by decide)

end CryptoSleuth
